import Mathlib

/-!
The Connection type of dbus-python, `_dbus_bindings/conn.c`.

A shallow embedding of the C functions of `conn.c`

* `DBusPyConnection_HandleMessage`
* `DBusPyConnection_GetObjectPathHandlers`
* `DBusPyConnection_ExistingFromDBusConnection`
* `DBusPyConnection_NewConsumingDBusConnection`
* `Connection_tp_dealloc`

C pointers are `Option`s (`none` is `NULL`), the interpreter's error
indicator is an explicit `Option PyErr`, and calls into libdbus and the
main-loop glue are logged, in order, in the `trace` of the `World`.
Calls that can fail outside this file (allocation, `dbus_connection_set_data`,
`dbus_py_set_up_connection`) take their outcome from an `Env`.
Weak references are never cleared by `conn.c`: the one stored on a handle keeps
the address of its wrapper after the wrapper is freed.

Not modelled: the global interpreter lock (`Py_BEGIN_ALLOW_THREADS`), the
debugging output (`DBG`, `DBG_EXC`, `DBG_WHEREAMI`), the reference count of the
object a handler returns, and what callbacks run by libdbus during a call do to
the state.
-/

namespace DBusPy

/-! ## Exceptions and the error indicator -/

/-- Exception classes.  `Subclass b n` is the n-th class derived from `b`,
`Other n` a class derived from none of the listed ones. -/
inductive PyExc where
  | MemoryError
  | TypeError
  | ValueError
  | KeyError
  | AssertionError
  | OverflowError
  | RuntimeError
  | Other (id : Nat)
  | Subclass (base : PyExc) (id : Nat)
  deriving DecidableEq, Repr

/-- The class test behind `PyErr_GivenExceptionMatches`: `e` is `cls` or derives from it. -/
def PyExc.matches : PyExc → PyExc → Bool
  | .Subclass b n, cls => decide (PyExc.Subclass b n = cls) || PyExc.matches b cls
  | e, cls => decide (e = cls)

/-- A pending exception: its class and its message. -/
structure PyErr where
  type : PyExc
  msg : String
  deriving DecidableEq, Repr

/-- `PyErr_ExceptionMatches(cls)` on the error indicator `err`; it is false when no
exception is pending. -/
def PyErr_ExceptionMatches (err : Option PyErr) (cls : PyExc) : Bool :=
  match err with
  | none => false
  | some e => e.type.matches cls

/-- `PyErr_Occurred()` as a truth value. -/
def PyErr_Occurred (err : Option PyErr) : Bool := err.isSome

/-- `PyErr_SetString(cls, msg)`: the new error indicator. -/
def PyErr_SetString (cls : PyExc) (msg : String) : Option PyErr := some ⟨cls, msg⟩

/-! ## Values a handler callback can return -/

/-- Python objects as far as `DBusPyConnection_HandleMessage` tells them apart.
`Int v` is an `int`/`long` object of value `v`.  `Other n nb_int` is any other
object; `nb_int` is what its number protocol's `nb_int` slot (`__int__`) yields:
`none` when the slot is missing, raises, or does not return an integer. -/
inductive PyObject where
  | None
  | NotImplemented
  | Int (v : Int)
  | Other (id : Nat) (nb_int : Option Int)
  deriving DecidableEq, Repr

/-- `LONG_MIN` of the C `long` (LP64). -/
def LONG_MIN : Int := -(2 ^ 63)

/-- `LONG_MAX` of the C `long` (LP64). -/
def LONG_MAX : Int := 2 ^ 63 - 1

/-- Conversion of an integer value to a C `long`: the value, or `-1` with
`OverflowError` pending when it does not fit. -/
def long_of_value (v : Int) (err : Option PyErr) : Int × Option PyErr :=
  if LONG_MIN ≤ v ∧ v ≤ LONG_MAX then (v, err)
  else (-1, PyErr_SetString .OverflowError "Python int too large to convert to C long")

/-- `PyInt_AsLong(obj)` of the CPython API: an integer object gives its value, any
other object is first converted through its `nb_int` slot; on failure (no conversion,
or a value that does not fit a `long`) the result is `-1` with an exception pending. -/
def PyInt_AsLong (obj : PyObject) (err : Option PyErr) : Int × Option PyErr :=
  match obj with
  | .Int v => long_of_value v err
  | .Other _ (some v) => long_of_value v err
  | _ => (-1, PyErr_SetString .TypeError "an integer is required")

/-- The C cast `(int)i` of a `long`. -/
def int_of_long (i : Int) : Int := (i + 2 ^ 31) % 2 ^ 32 - 2 ^ 31

/-! ## `DBusHandlerResult` -/

/-- The C enum `DBusHandlerResult` is an integer. -/
abbrev DBusHandlerResult := Int

/-- Enum constant `DBUS_HANDLER_RESULT_HANDLED`. -/
def DBUS_HANDLER_RESULT_HANDLED : DBusHandlerResult := 0

/-- Enum constant `DBUS_HANDLER_RESULT_NOT_YET_HANDLED`. -/
def DBUS_HANDLER_RESULT_NOT_YET_HANDLED : DBusHandlerResult := 1

/-- Enum constant `DBUS_HANDLER_RESULT_NEED_MEMORY`. -/
def DBUS_HANDLER_RESULT_NEED_MEMORY : DBusHandlerResult := 2

/-- What `PyObject_CallFunctionObjArgs(callable, conn, msg, NULL)` leaves behind:
the returned pointer (`none` is `NULL`) and the error indicator after the call. -/
abbrev CallOutcome := Option PyObject × Option PyErr

/-- A handler callback: called with the Connection and the message (both by address). -/
abbrev Callable := Nat → Nat → CallOutcome

/-- Message of the `TypeError` set by `DBusPyConnection_HandleMessage`. -/
def handler_type_msg : String :=
  "Return from D-Bus message handler callback should be None, NotImplemented or integer"

/-- Message of the `ValueError` set by `DBusPyConnection_HandleMessage`. -/
def handler_value_msg (i : Int) : String :=
  "Integer return from D-Bus message handler callback should be a DBUS_HANDLER_RESULT_... constant, not "
    ++ toString (int_of_long i)

/-- `DBusPyConnection_HandleMessage(conn, msg, callable)`: the handler result and the
error indicator on return.  Reference counting of the returned object is not modelled. -/
def DBusPyConnection_HandleMessage (conn : Nat) (msg : Nat) (callable : Callable) :
    DBusHandlerResult × Option PyErr :=
  match callable conn msg with
  | (some .None, err) => (DBUS_HANDLER_RESULT_HANDLED, err)
  | (some .NotImplemented, err) => (DBUS_HANDLER_RESULT_NOT_YET_HANDLED, err)
  | (none, err) =>
    if PyErr_ExceptionMatches err .MemoryError then
      (DBUS_HANDLER_RESULT_NEED_MEMORY, none)
    else
      (DBUS_HANDLER_RESULT_NOT_YET_HANDLED, err)
  | (some obj, err) =>
    let (i, err1) := PyInt_AsLong obj err
    if i = -1 ∧ PyErr_Occurred err1 = true then
      (DBUS_HANDLER_RESULT_NOT_YET_HANDLED, PyErr_SetString .TypeError handler_type_msg)
    else if i = DBUS_HANDLER_RESULT_HANDLED ∨ i = DBUS_HANDLER_RESULT_NOT_YET_HANDLED ∨
        i = DBUS_HANDLER_RESULT_NEED_MEMORY then
      (i, err1)
    else
      (DBUS_HANDLER_RESULT_NOT_YET_HANDLED, PyErr_SetString .ValueError (handler_value_msg i))

/-! ## Interpreter and libdbus state -/

/-- A `DBusConnection *` that is not `NULL`, by identity. -/
abbrev Handle := Nat

/-- A type object passed as `cls`; `connection_subtype` is
`PyType_IsSubtype(cls, &DBusPyConnection_Type)`. -/
structure PyTypeObject where
  id : Nat
  connection_subtype : Bool
  deriving DecidableEq, Repr

/-- A `PyObject *` that is not `NULL`: `Py_None`, an object with the layout of
`Connection` by address, or an object of another kind (a main loop, say) by identity.
Weak reference objects are kept apart, see `World.weakrefs`. -/
inductive Ptr where
  | None
  | obj (addr : Nat)
  | ext (id : Nat)
  deriving DecidableEq, Repr

/-- The C struct `Connection` (declared in `conn-internal.h`): the object header and
the fields `conn`, `filters` (a list, by contents) and `object_paths` (a dict from
path to handlers, by contents). -/
structure Connection where
  ob_refcnt : Nat
  ob_type : PyTypeObject
  conn : Option Handle
  filters : Option (List Nat)
  object_paths : Option (List (String × Nat))
  deriving DecidableEq, Repr

/-- Effects that leave this file, and the stores whose order matters, in program order. -/
inductive Event where
  | tp_alloc (cls : PyTypeObject)
  | dbus_connection_set_data (h : Handle) (ref : Nat) (ok : Bool)
  | dbus_py_set_up_connection (self : Nat) (mainloop : Ptr)
  | dbus_connection_close (h : Handle)
  | dbus_connection_unref (h : Option Handle)
  | Py_INCREF (p : Ptr)
  | Py_DECREF (p : Ptr)
  | free_weakref (ref : Nat)
  | release_filters (self : Nat) (filters : Option (List Nat))
  | release_object_paths (self : Nat) (object_paths : Option (List (String × Nat)))
  | set_conn_NULL (self : Nat)
  | tp_free (self : Nat)
  deriving DecidableEq, Repr

/-- State of the interpreter and of libdbus as far as `conn.c` reads and writes it. -/
structure World where
  /-- error indicator -/
  err : Option PyErr
  /-- live objects with the layout of `Connection`, by address -/
  heap : List (Nat × Connection)
  /-- live weak reference objects: address, and the address the weak reference holds
  (`none` once the weak reference has been cleared) -/
  weakrefs : List (Nat × Option Nat)
  /-- datum stored on each handle in `_connection_python_slot` (a weak reference) -/
  slot : List (Handle × Nat)
  /-- effects so far, oldest first -/
  trace : List Event
  deriving DecidableEq, Repr

/-- Outcomes of the calls `DBusPyConnection_NewConsumingDBusConnection` makes into code
outside this file.  `some e` means: the call fails and leaves `e` pending. -/
structure Env where
  /-- result of `dbus_py_get_default_main_loop()`: `NULL`, `Py_None` or a main loop -/
  default_main_loop : Option Ptr
  tp_alloc_fails : Option PyErr
  PyList_New_fails : Option PyErr
  PyDict_New_fails : Option PyErr
  PyWeakref_NewRef_fails : Option PyErr
  /-- result of `dbus_connection_set_data` -/
  set_data_ok : Bool
  set_up_connection_fails : Option PyErr
  deriving DecidableEq, Repr

/-- The addresses in use: of the live objects, of the weak reference objects, and the
ones stored on handles. -/
def World.addresses (w : World) : List Nat :=
  w.heap.map (fun p => p.1) ++ w.weakrefs.map (fun p => p.1) ++ w.slot.map (fun p => p.2)

/-- The address the allocator hands out next: one that is not in use. -/
def World.fresh (w : World) : Nat := w.addresses.foldr max 0 + 1

/-- Append an effect to the trace. -/
def World.emit (w : World) (e : Event) : World := { w with trace := w.trace ++ [e] }

/-- Write the object at `a`. -/
def World.store (w : World) (a : Nat) (c : Connection) : World :=
  { w with heap := (a, c) :: w.heap.filter (fun p => p.1 != a) }

/-- Read the object at `a`, if it is live. -/
def World.load (w : World) (a : Nat) : Option Connection := w.heap.lookup a

/-- Update the object at `a` in place. -/
def World.modify (w : World) (a : Nat) (f : Connection → Connection) : World :=
  match w.load a with
  | some c => w.store a (f c)
  | none => w

/-- The events appended to the trace between `w` and the later state `w1`. -/
def World.since (w w1 : World) : List Event := w1.trace.drop w.trace.length

/-- `dbus_connection_get_data(conn, _connection_python_slot)`. -/
def dbus_connection_get_data (w : World) (conn : Handle) : Option Nat := w.slot.lookup conn

/-- `PyWeakref_GetObject(ref)`: the address the weak reference holds, `Py_None` when
the weak reference has been cleared, `NULL` when `ref` is not a live weak reference
object.  Nothing in `conn.c` clears a weak reference (`Connection_tp_dealloc` does not
call `PyObject_ClearWeakRefs`), so the address is returned also after the object at it
has been freed. -/
def PyWeakref_GetObject (w : World) (ref : Nat) : Option Ptr :=
  match w.weakrefs.lookup ref with
  | none => none
  | some none => some .None
  | some (some a) => some (.obj a)

/-- `DBusPyConnection_Check(p)` (declared outside `conn.c`): the object's type is
`Connection` or derives from it, which the type object tells.  On the address of a freed
object the test reads freed memory; it is taken to fail. -/
def DBusPyConnection_Check (w : World) (p : Ptr) : Bool :=
  match p with
  | .obj a =>
    match w.load a with
    | some c => c.ob_type.connection_subtype
    | none => false
  | _ => false

/-- `Py_INCREF(p)`: counted on the objects of the heap, logged for the others. -/
def Py_INCREF (w : World) (p : Ptr) : World :=
  match p with
  | .obj a =>
    match w.load a with
    | some c => w.store a { c with ob_refcnt := c.ob_refcnt + 1 }
    | none => w.emit (.Py_INCREF p)
  | _ => w.emit (.Py_INCREF p)

/-! ## `Connection_tp_dealloc` -/

/-- The states `Connection_tp_dealloc(self)` goes through, one per statement, in order:
close (when `conn` is not `NULL`), `self->filters = NULL`, `Py_XDECREF(filters)`,
`self->object_paths = NULL`, `Py_XDECREF(object_paths)`, `self->conn = NULL`,
`dbus_connection_unref(conn)`, `tp_free(self)`.  The weak references to the object are
left as they are. -/
def Connection_tp_dealloc_states (w : World) (self : Nat) : List World :=
  match w.load self with
  | none => []
  | some c =>
    let conn := c.conn
    let filters := c.filters
    let object_paths := c.object_paths
    let w1 := match conn with
      | some h => w.emit (.dbus_connection_close h)
      | none => w
    let w2 := w1.modify self (fun c => { c with filters := none })
    let w3 := w2.emit (.release_filters self filters)
    let w4 := w3.modify self (fun c => { c with object_paths := none })
    let w5 := w4.emit (.release_object_paths self object_paths)
    let w6 := (w5.modify self (fun c => { c with conn := none })).emit (.set_conn_NULL self)
    let w7 := w6.emit (.dbus_connection_unref conn)
    let w8 := { w7 with heap := w7.heap.filter (fun p => p.1 != self) }.emit (.tp_free self)
    [w1, w2, w3, w4, w5, w6, w7, w8]

/-- `Connection_tp_dealloc(self)`: the state when the destructor returns. -/
def Connection_tp_dealloc (w : World) (self : Nat) : World :=
  ((Connection_tp_dealloc_states w self).getLast?).getD w

/-- `Py_XDECREF(p)`.  The count of a heap object is decremented and the destructor runs
when it reaches zero; for other objects the decrement is logged. -/
def Py_XDECREF (w : World) (p : Option Ptr) : World :=
  match p with
  | none => w
  | some (.obj a) =>
    match w.load a with
    | some c =>
      if c.ob_refcnt ≤ 1 then Connection_tp_dealloc w a
      else w.store a { c with ob_refcnt := c.ob_refcnt - 1 }
    | none => w.emit (.Py_DECREF (.obj a))
  | some q => w.emit (.Py_DECREF q)

/-- `Py_XDECREF(ref)` on the one reference to a weak reference object: the object is
freed.  Also the body of `dbus_py_take_gil_and_xdecref(ref)`. -/
def Py_XDECREF_weakref (w : World) (ref : Option Nat) : World :=
  match ref with
  | none => w
  | some r => { w with weakrefs := w.weakrefs.filter (fun p => p.1 != r) }.emit (.free_weakref r)

/-! ## `DBusPyConnection_GetObjectPathHandlers` -/

/-- `PyDict_GetItem(d, key)` of the CPython API: the stored value, or `NULL` when the
key is absent; it never sets an exception and leaves a pending one as it is. -/
def PyDict_GetItem (d : List (String × Nat)) (key : String) : Option Nat := d.lookup key

/-- How a call of `DBusPyConnection_GetObjectPathHandlers` ends: it returns the stored
handlers, or `Py_None`, each with the error indicator on return, or it dereferences
`NULL`. -/
inductive PathLookup where
  | handlers (callbacks : Nat) (err : Option PyErr)
  | py_none (err : Option PyErr)
  | fault
  deriving DecidableEq, Repr

/-- `DBusPyConnection_GetObjectPathHandlers(self, path)`, entered with error indicator
`err`.  `PyDict_GetItem` on a `NULL` dict and `Py_INCREF(NULL)` dereference `NULL`. -/
def DBusPyConnection_GetObjectPathHandlers (self : Connection) (path : String)
    (err : Option PyErr) : PathLookup :=
  match self.object_paths with
  | none => .fault
  | some d =>
    match PyDict_GetItem d path with
    | none =>
      if PyErr_ExceptionMatches err .KeyError then
        .py_none none
      else
        .fault
    | some callbacks => .handlers callbacks err

/-! ## `DBusPyConnection_ExistingFromDBusConnection` -/

/-- Message of the `AssertionError` of `DBusPyConnection_ExistingFromDBusConnection`. -/
def no_connection_msg : String :=
  "D-Bus connection does not have a Connection instance associated with it"

/-- `DBusPyConnection_ExistingFromDBusConnection(conn)` for a handle that is not `NULL`:
a new reference to the Connection the handle is associated with, or `NULL` with
`AssertionError` pending. -/
def DBusPyConnection_ExistingFromDBusConnection (w : World) (conn : Handle) :
    Option Nat × World :=
  let failed : Option Nat × World :=
    (none, { w with err := PyErr_SetString .AssertionError no_connection_msg })
  match dbus_connection_get_data w conn with
  | some ref =>
    match PyWeakref_GetObject w ref with
    | some (.obj a) =>
      if DBusPyConnection_Check w (.obj a) then (some a, Py_INCREF w (.obj a)) else failed
    | _ => failed
  | none => failed

/-! ## `DBusPyConnection_NewConsumingDBusConnection` -/

/-- Message of the `AssertionError` raised for a handle that already has a Connection. -/
def already_associated_msg : String :=
  "Newly created D-Bus connection already has a Connection instance associated with it"

/-- Message of the `ValueError` raised when there is no main loop. -/
def no_main_loop_msg : String :=
  "D-Bus connections must be attached to a main loop by passing mainloop=... to the constructor or calling dbus.Bus.set_default_main_loop(...)"

/-- The checks `DBUS_PY_RAISE_VIA_NULL_IF_FAIL(conn)` and
`DBUS_PY_RAISE_VIA_GOTO_IF_FAIL(conn, err)` are declared outside `conn.c`
(`dbus_bindings-internal.h`): on a `NULL` `conn` they set an exception, taken here to be
this `AssertionError`, and leave the function. -/
def assertion_failed_conn : Option PyErr :=
  PyErr_SetString .AssertionError "Assertion failed: conn"

/-- Modelled from the spec: `dbus_py_get_default_main_loop()` is defined outside
`conn.c`.  It fetches the process-wide default main-loop binding, which `env` supplies
(`NULL` or `Py_None` when none is configured); the caller owns the reference it gets,
as it does after `Py_INCREF(mainloop)` in the other branch. -/
def dbus_py_get_default_main_loop (w : World) (env : Env) : Option Ptr × World :=
  match env.default_main_loop with
  | some p => (some p, Py_INCREF w p)
  | none => (none, w)

/-- The code after the label `err:` with the locals as they are at the jump. -/
def NewConsuming_err (w : World) (mainloop : Option Ptr) (self : Option Ptr)
    (ref : Option Nat) (conn : Option Handle) : Option Nat × World :=
  let w1 := Py_XDECREF w mainloop
  let w2 := Py_XDECREF w1 self
  let w3 := Py_XDECREF_weakref w2 ref
  let w4 := match conn with
    | some h => (w3.emit (.dbus_connection_close h)).emit (.dbus_connection_unref (some h))
    | none => w3
  (none, w4)

/-- `dbus_connection_set_data(conn, _connection_python_slot, ref, dbus_py_take_gil_and_xdecref)`
when it succeeds: the datum is replaced and libdbus calls the free function of the
datum it replaces. -/
def dbus_connection_set_data (w : World) (h : Handle) (r : Nat) : World :=
  let w1 := match dbus_connection_get_data w h with
    | some old => Py_XDECREF_weakref w (some old)
    | none => w
  { w1 with slot := (h, r) :: w1.slot.filter (fun p => p.1 != h) }

/-- From `ref = PyWeakref_NewRef(self, NULL)` to the end of the function; `self` is
the address of the wrapper, `mainloop` the owned reference to the main loop.  The check
`DBUS_PY_RAISE_VIA_GOTO_IF_FAIL(conn, err)` after `dbus_connection_set_data` cannot
fail, `conn` is not `NULL` there. -/
def NewConsuming_register (w : World) (env : Env) (h : Handle) (mainloop : Ptr)
    (self : Nat) : Option Nat × World :=
  match env.PyWeakref_NewRef_fails with
  | some e =>
    NewConsuming_err { w with err := some e } (some mainloop) (some (.obj self)) none (some h)
  | none =>
    let r := w.fresh
    let w1 := { w with weakrefs := (r, some self) :: w.weakrefs }
    if env.set_data_ok = false then
      let w2 := w1.emit (.dbus_connection_set_data h r false)
      NewConsuming_err { w2 with err := PyErr_SetString .MemoryError "" } (some mainloop)
        (some (.obj self)) (some r) (some h)
    else
      let w2 := (dbus_connection_set_data w1 h r).emit (.dbus_connection_set_data h r true)
      let w3 := w2.modify self (fun c => { c with conn := some h })
      let w4 := w3.emit (.dbus_py_set_up_connection self mainloop)
      match env.set_up_connection_fails with
      | some e =>
        NewConsuming_err { w4 with err := some e } (some mainloop) (some (.obj self))
          (some r) (some h)
      | none => (some self, Py_XDECREF w4 (some mainloop))

/-- From `self = cls->tp_alloc(cls, 0)` to the end of the function. -/
def NewConsuming_construct (w : World) (env : Env) (cls : PyTypeObject) (h : Handle)
    (mainloop : Ptr) : Option Nat × World :=
  let w0 := w.emit (.tp_alloc cls)
  match env.tp_alloc_fails with
  | some e => NewConsuming_err { w0 with err := some e } (some mainloop) none none (some h)
  | none =>
    let self := w0.fresh
    let w1 := w0.store self
      { ob_refcnt := 1, ob_type := cls, conn := none, filters := none, object_paths := none }
    match env.PyList_New_fails with
    | some e =>
      NewConsuming_err { w1 with err := some e } (some mainloop) (some (.obj self)) none (some h)
    | none =>
      let w2 := w1.modify self (fun c => { c with filters := some [] })
      match env.PyDict_New_fails with
      | some e =>
        NewConsuming_err { w2 with err := some e } (some mainloop) (some (.obj self)) none (some h)
      | none =>
        let w3 := w2.modify self (fun c => { c with object_paths := some [] })
        NewConsuming_register w3 env h mainloop self

/-- The C local `self` after the association check at the top of the function: what
the weak reference stored on the handle refers to, `NULL` when none is stored. -/
def NewConsuming_self (w : World) (h : Handle) : Option Ptr :=
  match dbus_connection_get_data w h with
  | some ref => PyWeakref_GetObject w ref
  | none => none

/-- The branch taken when `mainloop` is `NULL` or `Py_None`: the process-wide default is
fetched, and the construction goes on with it unless it is `NULL` or `Py_None` too.
`self` is the C local of that name, as the association check left it. -/
def NewConsuming_default (w : World) (env : Env) (cls : PyTypeObject) (h : Handle)
    (self : Option Ptr) : Option Nat × World :=
  let (ml, w1) := dbus_py_get_default_main_loop w env
  match ml with
  | none =>
    NewConsuming_err { w1 with err := PyErr_SetString .ValueError no_main_loop_msg }
      none self none (some h)
  | some .None =>
    NewConsuming_err { w1 with err := PyErr_SetString .ValueError no_main_loop_msg }
      (some .None) self none (some h)
  | some p => NewConsuming_construct w1 env cls h p

/-- `DBusPyConnection_NewConsumingDBusConnection(cls, conn, mainloop)`: the returned
wrapper (by address; `none` is `NULL`) and the state on return. -/
def DBusPyConnection_NewConsumingDBusConnection (w : World) (env : Env) (cls : PyTypeObject)
    (conn : Option Handle) (mainloop : Option Ptr) : Option Nat × World :=
  match conn with
  | none => (none, { w with err := assertion_failed_conn })
  | some h =>
    let self := NewConsuming_self w h
    if self.isSome ∧ self ≠ some .None then
      (none, { w with err := PyErr_SetString .AssertionError already_associated_msg })
    else
      match mainloop with
      | none => NewConsuming_default w env cls h self
      | some .None => NewConsuming_default w env cls h self
      | some ml => NewConsuming_construct (Py_INCREF w ml) env cls h ml

/-! ## Notions used in the statements and proofs -/

/-- The state in which `dbus_py_set_up_connection` is called by the constructor. -/
def NewConsuming_attached (w : World) (h : Handle) (ml : Ptr) (self : Nat) : World :=
  (((dbus_connection_set_data
      { w with weakrefs := (w.fresh, some self) :: w.weakrefs } h w.fresh).emit
      (.dbus_connection_set_data h w.fresh true)).modify self
      (fun c => { c with conn := some h })).emit (.dbus_py_set_up_connection self ml)

/-- Handle `h`, and no other handle, stores the weak reference `r`, which refers to `c`. -/
def Associated (h : Handle) (r c : Nat) (w : World) : Prop :=
  dbus_connection_get_data w h = some r ∧
  (∀ h1, h1 ≠ h → dbus_connection_get_data w h1 ≠ some r) ∧
  w.weakrefs.lookup r = some (some c)

/-- The state after the wrapper is allocated and its `filters` and `object_paths` are
set, before the weak reference is created. -/
def NewConsuming_allocated (w : World) (cls : PyTypeObject) : World :=
  ((((w.emit (.tp_alloc cls)).store w.fresh
      { ob_refcnt := 1, ob_type := cls, conn := none, filters := none, object_paths := none }
      ).modify w.fresh (fun c => { c with filters := some [] })).modify w.fresh
      (fun c => { c with object_paths := some [] }))

/-- The calls a client of this file makes on the state: the constructor, the lookup,
and taking and dropping a reference. -/
inductive Op where
  | construct (env : Env) (cls : PyTypeObject) (conn : Option Handle) (mainloop : Option Ptr)
  | lookup (conn : Handle)
  | incref (p : Ptr)
  | decref (p : Ptr)

/-- The state after one call. -/
def Op.run (o : Op) (w : World) : World :=
  match o with
  | .construct env cls conn mainloop =>
    (DBusPyConnection_NewConsumingDBusConnection w env cls conn mainloop).2
  | .lookup conn => (DBusPyConnection_ExistingFromDBusConnection w conn).2
  | .incref p => Py_INCREF w p
  | .decref p => Py_XDECREF w (some p)

/-- The state after a sequence of calls. -/
def run_ops (ops : List Op) (w : World) : World := ops.foldl (fun w o => o.run w) w

/-- The object at `c` is a live Connection in `w` and after each of the calls `ops`. -/
def alive_throughout (c : Nat) : List Op → World → Bool
  | [], w => DBusPyConnection_Check w (.obj c)
  | o :: ops, w => DBusPyConnection_Check w (.obj c) && alive_throughout c ops (o.run w)

/-! ## Concrete inputs -/

/-- A Connection on handle `1` whose `object_paths` has the one key `/org/a`, with
handlers `5`. -/
def sample_connection : Connection :=
  ⟨1, ⟨0, true⟩, some 1, some [], some [("/org/a", 5)]⟩

/-- A state with no objects, no associations and no pending error. -/
def empty_world : World := ⟨none, [], [], [], []⟩

/-- The type `Connection` itself. -/
def Connection_Type : PyTypeObject := ⟨0, true⟩

/-- Every outside call succeeds; no default main loop is configured. -/
def env_ok : Env := ⟨none, none, none, none, none, true, none⟩

/-- Every outside call succeeds except `dbus_py_set_up_connection`, which fails with the
`TypeError` it raises for a main loop that is not a `NativeMainLoop`. -/
def env_attach_fails : Env :=
  ⟨none, none, none, none, none, true,
    some ⟨.TypeError, "A dbus.mainloop.NativeMainLoop instance is required"⟩⟩

/-- A state in which handle `7` is associated with the live Connection at address `1`
through the weak reference at address `2`. -/
def associated_world : World :=
  ⟨none, [(1, ⟨1, Connection_Type, some 7, some [], some []⟩)], [(2, some 1)], [(7, 2)], []⟩

/-! ## Theorems -/

/-- C1: when the callback returns without raising (a non-NULL object, no exception
pending), `None` gives Handled, `NotImplemented` gives NotYetHandled, an integer equal
to 0, 1 or 2 is returned as it is, and in each case no error is pending on return. -/
theorem C1_sentinels_and_constants (conn msg : Nat) (callable : Callable) (obj : PyObject)
    (hcall : callable conn msg = (some obj, none)) :
    (obj = .None →
      DBusPyConnection_HandleMessage conn msg callable = (DBUS_HANDLER_RESULT_HANDLED, none)) ∧
    (obj = .NotImplemented →
      DBusPyConnection_HandleMessage conn msg callable
        = (DBUS_HANDLER_RESULT_NOT_YET_HANDLED, none)) ∧
    (∀ i : Int, obj = .Int i → (i = 0 ∨ i = 1 ∨ i = 2) →
      DBusPyConnection_HandleMessage conn msg callable = (i, none)) ∧
    DBUS_HANDLER_RESULT_HANDLED = 0 ∧ DBUS_HANDLER_RESULT_NOT_YET_HANDLED = 1 ∧
    DBUS_HANDLER_RESULT_NEED_MEMORY = 2 := by
  refine ⟨?_, ?_, ?_, rfl, rfl, rfl⟩
  · rintro rfl
    simp [DBusPyConnection_HandleMessage, hcall]
  · rintro rfl
    simp [DBusPyConnection_HandleMessage, hcall]
  · rintro i rfl hi
    rcases hi with rfl | rfl | rfl <;> simp [DBusPyConnection_HandleMessage, hcall] <;> decide

/-- Witness for C1: a callback returning the integer 2. -/
theorem C1_sentinels_and_constants_witness :
    (fun (_ _ : Nat) => ((some (PyObject.Int 2), none) : CallOutcome)) 1 2
      = (some (.Int 2), none) ∧
    DBusPyConnection_HandleMessage 1 2 (fun _ _ => (some (.Int 2), none)) = (2, none) :=
  ⟨rfl,
    (C1_sentinels_and_constants 1 2 (fun _ _ => (some (.Int 2), none)) (.Int 2) rfl).2.2.1 2
      rfl (by decide)⟩

/-- C2: when the callback fails (returns NULL) with a pending exception that is not a
`MemoryError`, the result is NotYetHandled and the same exception is still pending. -/
theorem C2_other_failure_kept (conn msg : Nat) (callable : Callable) (e : PyErr)
    (hcall : callable conn msg = (none, some e))
    (hmem : e.type.matches .MemoryError = false) :
    DBusPyConnection_HandleMessage conn msg callable
      = (DBUS_HANDLER_RESULT_NOT_YET_HANDLED, some e) := by
  simp [DBusPyConnection_HandleMessage, hcall, PyErr_ExceptionMatches, hmem]

/-- Witness for C2: a callback raising `KeyError`. -/
theorem C2_other_failure_kept_witness :
    PyExc.KeyError.matches .MemoryError = false ∧
    DBusPyConnection_HandleMessage 1 2 (fun _ _ => (none, some ⟨.KeyError, "k"⟩))
      = (1, some ⟨.KeyError, "k"⟩) :=
  ⟨by decide,
    C2_other_failure_kept 1 2 (fun _ _ => (none, some ⟨.KeyError, "k"⟩)) ⟨.KeyError, "k"⟩ rfl
      (by decide)⟩

/-- C3: when the callback fails (returns NULL) with a pending `MemoryError` (or an
exception derived from it), the result is NeedMemory and no error is pending on return. -/
theorem C3_memory_error_cleared (conn msg : Nat) (callable : Callable) (e : PyErr)
    (hcall : callable conn msg = (none, some e))
    (hmem : e.type.matches .MemoryError = true) :
    DBusPyConnection_HandleMessage conn msg callable
      = (DBUS_HANDLER_RESULT_NEED_MEMORY, none) := by
  simp [DBusPyConnection_HandleMessage, hcall, PyErr_ExceptionMatches, hmem]

/-- Witness for C3: a callback raising a class derived from `MemoryError`. -/
theorem C3_memory_error_cleared_witness :
    (PyExc.Subclass .MemoryError 4).matches .MemoryError = true ∧
    DBusPyConnection_HandleMessage 1 2
        (fun _ _ => (none, some ⟨.Subclass .MemoryError 4, "oom"⟩))
      = (2, none) :=
  ⟨by decide,
    C3_memory_error_cleared 1 2 (fun _ _ => (none, some ⟨.Subclass .MemoryError 4, "oom"⟩))
      ⟨.Subclass .MemoryError 4, "oom"⟩ rfl (by decide)⟩

/-- C4 as stated fails: an object that is not an integer but converts to 0 through
`nb_int` (the float `0.0`, say) is neither `None`, nor `NotImplemented`, nor an integer
in 0..2, yet the result is Handled and no error is recorded.  And the integer `2 ^ 63`,
outside the tri-state range, is answered with a `TypeError`, not a `ValueError`. -/
theorem C4_counterexample :
    PyObject.Other 7 (some 0) ≠ .None ∧ PyObject.Other 7 (some 0) ≠ .NotImplemented ∧
    PyObject.Other 7 (some 0) ≠ .Int 0 ∧ PyObject.Other 7 (some 0) ≠ .Int 1 ∧
    PyObject.Other 7 (some 0) ≠ .Int 2 ∧
    DBusPyConnection_HandleMessage 1 2 (fun _ _ => (some (.Other 7 (some 0)), none))
      = (DBUS_HANDLER_RESULT_HANDLED, none) ∧
    DBUS_HANDLER_RESULT_HANDLED ≠ DBUS_HANDLER_RESULT_NOT_YET_HANDLED ∧
    DBusPyConnection_HandleMessage 1 2 (fun _ _ => (some (.Int (2 ^ 63)), none))
      = (DBUS_HANDLER_RESULT_NOT_YET_HANDLED, some ⟨.TypeError, handler_type_msg⟩) := by
  decide

theorem PyInt_AsLong_cases (obj : PyObject) :
    (∃ v, PyInt_AsLong obj none = (v, none)) ∨ (∃ e, PyInt_AsLong obj none = (-1, some e)) := by
  cases obj with
  | None => exact Or.inr ⟨_, rfl⟩
  | NotImplemented => exact Or.inr ⟨_, rfl⟩
  | Int v =>
    by_cases hv : LONG_MIN ≤ v ∧ v ≤ LONG_MAX
    · exact Or.inl ⟨v, by simp [PyInt_AsLong, long_of_value, hv]⟩
    · exact Or.inr ⟨⟨.OverflowError, "Python int too large to convert to C long"⟩,
        by simp [PyInt_AsLong, long_of_value, hv, PyErr_SetString]⟩
  | Other n c =>
    cases c with
    | none => exact Or.inr ⟨_, rfl⟩
    | some v =>
      by_cases hv : LONG_MIN ≤ v ∧ v ≤ LONG_MAX
      · exact Or.inl ⟨v, by simp [PyInt_AsLong, long_of_value, hv]⟩
      · exact Or.inr ⟨⟨.OverflowError, "Python int too large to convert to C long"⟩,
        by simp [PyInt_AsLong, long_of_value, hv, PyErr_SetString]⟩

theorem HandleMessage_convert (conn msg : Nat) (callable : Callable) (obj : PyObject)
    (hcall : callable conn msg = (some obj, none))
    (hnone : obj ≠ .None) (hni : obj ≠ .NotImplemented) :
    DBusPyConnection_HandleMessage conn msg callable =
      if (PyInt_AsLong obj none).1 = -1 ∧ PyErr_Occurred (PyInt_AsLong obj none).2 = true then
        (DBUS_HANDLER_RESULT_NOT_YET_HANDLED, PyErr_SetString .TypeError handler_type_msg)
      else if (PyInt_AsLong obj none).1 = DBUS_HANDLER_RESULT_HANDLED ∨
          (PyInt_AsLong obj none).1 = DBUS_HANDLER_RESULT_NOT_YET_HANDLED ∨
          (PyInt_AsLong obj none).1 = DBUS_HANDLER_RESULT_NEED_MEMORY then
        PyInt_AsLong obj none
      else
        (DBUS_HANDLER_RESULT_NOT_YET_HANDLED,
          PyErr_SetString .ValueError (handler_value_msg (PyInt_AsLong obj none).1)) := by
  cases obj with
  | None => exact absurd rfl hnone
  | NotImplemented => exact absurd rfl hni
  | Int v => simp only [DBusPyConnection_HandleMessage, hcall]
  | Other n c => simp only [DBusPyConnection_HandleMessage, hcall]

/-- C4, amended: when the callback returns (without raising) a value that is neither
`None` nor `NotImplemented` and that `PyInt_AsLong` does not convert to 0, 1 or 2, the
result is NotYetHandled, with a `TypeError` recorded when `PyInt_AsLong` fails on the
value (no integer conversion, or an integer that does not fit a C `long`) and a
`ValueError` recorded when it converts to an integer outside 0..2 (99, or -1). -/
theorem C4_contract_violation (conn msg : Nat) (callable : Callable) (obj : PyObject)
    (hcall : callable conn msg = (some obj, none))
    (hnone : obj ≠ .None) (hni : obj ≠ .NotImplemented)
    (hconv : ¬ ((PyInt_AsLong obj none).2 = none ∧
      ((PyInt_AsLong obj none).1 = 0 ∨ (PyInt_AsLong obj none).1 = 1 ∨
        (PyInt_AsLong obj none).1 = 2))) :
    (DBusPyConnection_HandleMessage conn msg callable).1 = DBUS_HANDLER_RESULT_NOT_YET_HANDLED ∧
    ((PyInt_AsLong obj none).2 ≠ none →
      (DBusPyConnection_HandleMessage conn msg callable).2
        = some ⟨.TypeError, handler_type_msg⟩) ∧
    ((PyInt_AsLong obj none).2 = none →
      (DBusPyConnection_HandleMessage conn msg callable).2
        = some ⟨.ValueError, handler_value_msg (PyInt_AsLong obj none).1⟩) := by
  rw [HandleMessage_convert conn msg callable obj hcall hnone hni]
  rcases PyInt_AsLong_cases obj with ⟨v, hv⟩ | ⟨e, he⟩
  · rw [hv] at hconv ⊢
    have h3 : ¬ (v = 0 ∨ v = 1 ∨ v = 2) := fun h => hconv ⟨rfl, h⟩
    simp [PyErr_Occurred, DBUS_HANDLER_RESULT_HANDLED, DBUS_HANDLER_RESULT_NOT_YET_HANDLED,
      DBUS_HANDLER_RESULT_NEED_MEMORY, h3, PyErr_SetString]
  · rw [he]
    simp [PyErr_Occurred, DBUS_HANDLER_RESULT_NOT_YET_HANDLED, PyErr_SetString]

/-- Witness for C4: callbacks returning the integers 99 and -1. -/
theorem C4_contract_violation_witness :
    PyInt_AsLong (.Int 99) none = (99, none) ∧
    DBusPyConnection_HandleMessage 1 2 (fun _ _ => (some (.Int 99), none))
      = (1, some ⟨.ValueError, handler_value_msg 99⟩) ∧
    DBusPyConnection_HandleMessage 1 2 (fun _ _ => (some (.Int (-1)), none))
      = (1, some ⟨.ValueError, handler_value_msg (-1)⟩) :=
  ⟨by decide,
   Prod.ext
    (C4_contract_violation 1 2 (fun _ _ => (some (.Int 99), none)) (.Int 99) rfl (by decide)
      (by decide) (by decide)).1
    ((C4_contract_violation 1 2 (fun _ _ => (some (.Int 99), none)) (.Int 99) rfl (by decide)
      (by decide) (by decide)).2.2 rfl),
   Prod.ext
    (C4_contract_violation 1 2 (fun _ _ => (some (.Int (-1)), none)) (.Int (-1)) rfl
      (by decide) (by decide) (by decide)).1
    ((C4_contract_violation 1 2 (fun _ _ => (some (.Int (-1)), none)) (.Int (-1)) rfl
      (by decide) (by decide) (by decide)).2.2 rfl)⟩

/-- C5: on a Connection whose `object_paths` holds only `/org/a`, with no exception
pending, the lookup of the unregistered path `/org/b` dereferences `NULL` instead of
returning `None`; the lookup of the registered `/org/a` returns the stored handlers. -/
theorem C5_unregistered_path_faults :
    DBusPyConnection_GetObjectPathHandlers sample_connection "/org/b" none = .fault ∧
    DBusPyConnection_GetObjectPathHandlers sample_connection "/org/a" none
      = .handlers 5 none := by
  decide

theorem GetObjectPathHandlers_registered (self : Connection) (d : List (String × Nat))
    (path : String) (v : Nat) (err : Option PyErr)
    (hd : self.object_paths = some d) (hv : d.lookup path = some v) :
    DBusPyConnection_GetObjectPathHandlers self path err = .handlers v err := by
  simp [DBusPyConnection_GetObjectPathHandlers, hd, PyDict_GetItem, hv]

theorem GetObjectPathHandlers_unregistered (self : Connection) (d : List (String × Nat))
    (path : String) (hd : self.object_paths = some d) (hv : d.lookup path = none) :
    DBusPyConnection_GetObjectPathHandlers self path none = .fault := by
  simp [DBusPyConnection_GetObjectPathHandlers, hd, PyDict_GetItem, hv, PyErr_ExceptionMatches]

theorem Existing_some (w : World) (h : Handle) (c : Nat)
    (hlive : (DBusPyConnection_ExistingFromDBusConnection w h).1 = some c) :
    NewConsuming_self w h = some (.obj c) ∧ DBusPyConnection_Check w (.obj c) = true := by
  unfold DBusPyConnection_ExistingFromDBusConnection at hlive
  unfold NewConsuming_self
  cases hg : dbus_connection_get_data w h with
  | none => simp [hg] at hlive
  | some ref =>
    simp only [hg] at hlive ⊢
    cases hp : PyWeakref_GetObject w ref with
    | none => simp [hp] at hlive
    | some p =>
      cases p with
      | None => simp [hp] at hlive
      | ext a => simp [hp] at hlive
      | obj a =>
        simp only [hp] at hlive
        by_cases hc : DBusPyConnection_Check w (.obj a) = true
        · simp [hc] at hlive
          subst hlive
          exact ⟨rfl, hc⟩
        · simp [hc] at hlive

theorem Existing_of_self (w : World) (h : Handle) (c : Nat)
    (hself : NewConsuming_self w h = some (.obj c))
    (hcheck : DBusPyConnection_Check w (.obj c) = true) :
    (DBusPyConnection_ExistingFromDBusConnection w h).1 = some c := by
  unfold NewConsuming_self at hself
  unfold DBusPyConnection_ExistingFromDBusConnection
  cases hg : dbus_connection_get_data w h with
  | none => simp [hg] at hself
  | some ref =>
    simp only [hg] at hself ⊢
    simp [hself, hcheck]

/-- C7: when the lookup of handle `h` returns the Connection `c`, the constructor called
on `h` returns NULL with the `AssertionError` for an already associated handle, whatever
`cls`, `mainloop` and the outcomes of outside calls are; apart from the error indicator
the state is unchanged: nothing is logged (no close, no unref), the datum stored on
every handle, the weak references and the objects are as before, and the lookup of `h`
still returns `c`. -/
theorem C7_already_associated (w : World) (env : Env) (cls : PyTypeObject) (h : Handle)
    (mainloop : Option Ptr) (c : Nat)
    (hlive : (DBusPyConnection_ExistingFromDBusConnection w h).1 = some c) :
    DBusPyConnection_NewConsumingDBusConnection w env cls (some h) mainloop
      = (none, { w with err := some ⟨.AssertionError, already_associated_msg⟩ }) ∧
    (DBusPyConnection_NewConsumingDBusConnection w env cls (some h) mainloop).2.trace = w.trace ∧
    (DBusPyConnection_NewConsumingDBusConnection w env cls (some h) mainloop).2.slot = w.slot ∧
    (DBusPyConnection_NewConsumingDBusConnection w env cls (some h) mainloop).2.weakrefs
      = w.weakrefs ∧
    (DBusPyConnection_NewConsumingDBusConnection w env cls (some h) mainloop).2.heap = w.heap ∧
    (DBusPyConnection_ExistingFromDBusConnection
      (DBusPyConnection_NewConsumingDBusConnection w env cls (some h) mainloop).2 h).1
      = some c := by
  obtain ⟨hself, hcheck⟩ := Existing_some w h c hlive
  have hrun : DBusPyConnection_NewConsumingDBusConnection w env cls (some h) mainloop
      = (none, { w with err := some ⟨.AssertionError, already_associated_msg⟩ }) := by
    simp [DBusPyConnection_NewConsumingDBusConnection, hself, PyErr_SetString]
  rw [hrun]
  refine ⟨rfl, rfl, rfl, rfl, rfl, ?_⟩
  exact Existing_of_self _ h c hself hcheck

@[simp]
theorem load_emit (w : World) (e : Event) (a : Nat) : (w.emit e).load a = w.load a := rfl

@[simp]
theorem trace_emit (w : World) (e : Event) : (w.emit e).trace = w.trace ++ [e] := rfl

@[simp]
theorem slot_emit (w : World) (e : Event) : (w.emit e).slot = w.slot := rfl

@[simp]
theorem weakrefs_emit (w : World) (e : Event) : (w.emit e).weakrefs = w.weakrefs := rfl

@[simp]
theorem load_store_same (w : World) (a : Nat) (c : Connection) :
    (w.store a c).load a = some c := by
  simp [World.store, World.load, List.lookup]

@[simp]
theorem trace_store (w : World) (a : Nat) (c : Connection) :
    (w.store a c).trace = w.trace := rfl

@[simp]
theorem slot_store (w : World) (a : Nat) (c : Connection) :
    (w.store a c).slot = w.slot := rfl

@[simp]
theorem weakrefs_store (w : World) (a : Nat) (c : Connection) :
    (w.store a c).weakrefs = w.weakrefs := rfl

@[simp]
theorem trace_modify (w : World) (a : Nat) (f : Connection → Connection) :
    (w.modify a f).trace = w.trace := by
  unfold World.modify
  cases w.load a <;> rfl

@[simp]
theorem slot_modify (w : World) (a : Nat) (f : Connection → Connection) :
    (w.modify a f).slot = w.slot := by
  unfold World.modify
  cases w.load a <;> rfl

@[simp]
theorem weakrefs_modify (w : World) (a : Nat) (f : Connection → Connection) :
    (w.modify a f).weakrefs = w.weakrefs := by
  unfold World.modify
  cases w.load a <;> rfl

theorem load_modify_same (w : World) (a : Nat) (f : Connection → Connection) (c : Connection)
    (hc : w.load a = some c) : (w.modify a f).load a = some (f c) := by
  simp [World.modify, hc]

theorem dealloc_slot_weakrefs (w : World) (a : Nat) :
    (Connection_tp_dealloc w a).slot = w.slot ∧
    (Connection_tp_dealloc w a).weakrefs = w.weakrefs := by
  unfold Connection_tp_dealloc Connection_tp_dealloc_states
  cases hl : w.load a with
  | none => simp
  | some c =>
    cases hc : c.conn <;> simp [World.emit, hc]

theorem Py_XDECREF_slot_weakrefs (w : World) (p : Option Ptr) :
    (Py_XDECREF w p).slot = w.slot ∧ (Py_XDECREF w p).weakrefs = w.weakrefs := by
  unfold Py_XDECREF
  split
  · exact ⟨rfl, rfl⟩
  · split
    · split
      · exact dealloc_slot_weakrefs _ _
      · exact ⟨rfl, rfl⟩
    · exact ⟨rfl, rfl⟩
  · exact ⟨rfl, rfl⟩

@[simp]
theorem NewConsuming_err_fst (w : World) (ml self : Option Ptr) (ref : Option Nat)
    (conn : Option Handle) : (NewConsuming_err w ml self ref conn).1 = none := rfl

theorem le_foldr_max (l : List Nat) (a : Nat) (ha : a ∈ l) : a ≤ l.foldr max 0 := by
  induction l with
  | nil => simp at ha
  | cons b t ih =>
    simp only [List.mem_cons] at ha
    simp only [List.foldr_cons]
    rcases ha with rfl | ha
    · exact le_max_left _ _
    · exact le_trans (ih ha) (le_max_right _ _)

theorem lt_fresh (w : World) (a : Nat) (ha : a ∈ w.addresses) : a < w.fresh :=
  Nat.lt_succ_of_le (le_foldr_max _ _ ha)

theorem mem_of_lookup {α : Type} (l : List (Nat × α)) (k : Nat) (v : α)
    (hl : l.lookup k = some v) : (k, v) ∈ l := by
  induction l with
  | nil => simp at hl
  | cons p t ih =>
    obtain ⟨k1, v1⟩ := p
    by_cases hk : k = k1
    · subst hk
      simp [List.lookup] at hl
      simp [hl]
    · have hb : (k == k1) = false := by simpa using hk
      simp only [List.lookup, hb] at hl
      exact List.mem_cons_of_mem _ (ih hl)

theorem slot_datum_lt_fresh (w : World) (h : Handle) (r : Nat)
    (hr : dbus_connection_get_data w h = some r) : r < w.fresh := by
  apply lt_fresh
  have hm := mem_of_lookup w.slot h r hr
  simp only [World.addresses, List.mem_append, List.mem_map]
  exact Or.inr ⟨(h, r), hm, rfl⟩

theorem register_ok (w : World) (env : Env) (h : Handle) (ml : Ptr) (self : Nat)
    (h1 : env.PyWeakref_NewRef_fails = none) (h2 : env.set_data_ok = true)
    (h3 : env.set_up_connection_fails = none) :
    NewConsuming_register w env h ml self
      = (some self, Py_XDECREF (NewConsuming_attached w h ml self) (some ml)) := by
  simp [NewConsuming_register, NewConsuming_attached, h1, h2, h3]

theorem dbus_connection_set_data_slot (w : World) (h : Handle) (r : Nat) :
    (dbus_connection_set_data w h r).slot.lookup h = some r := by
  simp [dbus_connection_set_data, List.lookup]

theorem attached_weakref (w : World) (h : Handle) (self : Nat) :
    (dbus_connection_set_data { w with weakrefs := (w.fresh, some self) :: w.weakrefs } h
      w.fresh).weakrefs.lookup w.fresh = some (some self) := by
  unfold dbus_connection_set_data
  cases hg : dbus_connection_get_data w h with
  | none =>
    have hg2 : dbus_connection_get_data
        { w with weakrefs := (w.fresh, some self) :: w.weakrefs } h = none := hg
    simp [hg2, List.lookup]
  | some old =>
    have hg2 : dbus_connection_get_data
        { w with weakrefs := (w.fresh, some self) :: w.weakrefs } h = some old := hg
    have hlt := slot_datum_lt_fresh w h old hg
    have hne : (w.fresh != old) = true := by simpa using (Nat.ne_of_gt hlt)
    simp [hg2, Py_XDECREF_weakref, World.emit, List.filter, hne, List.lookup]

theorem lookup_filter_ne {α : Type} (l : List (Nat × α)) (k k1 : Nat) (hk : k ≠ k1) :
    (l.filter (fun p => p.1 != k1)).lookup k = l.lookup k := by
  induction l with
  | nil => rfl
  | cons p t ih =>
    obtain ⟨a, b⟩ := p
    by_cases ha : a = k1
    · subst ha
      have hb : (k == a) = false := by simpa using hk
      simp [List.filter, List.lookup, hb, ih]
    · have hb : (a != k1) = true := by simpa using ha
      simp only [List.filter, hb, List.lookup]
      rw [ih]

theorem dbus_connection_set_data_slot_other (w : World) (h h1 : Handle) (r : Nat)
    (hh : h1 ≠ h) :
    (dbus_connection_set_data w h r).slot.lookup h1 = w.slot.lookup h1 := by
  have hs : (match dbus_connection_get_data w h with
      | some old => Py_XDECREF_weakref w (some old)
      | none => w).slot = w.slot := by
    cases dbus_connection_get_data w h <;> rfl
  unfold dbus_connection_set_data
  have hb : (h1 == h) = false := by simpa using hh
  simp only [List.lookup, hb]
  rw [lookup_filter_ne _ _ _ hh, hs]

theorem register_success (w : World) (env : Env) (h : Handle) (ml : Ptr) (self c : Nat)
    (hc : (NewConsuming_register w env h ml self).1 = some c) :
    c = self ∧ ∃ r, Associated h r c (NewConsuming_register w env h ml self).2 := by
  cases h1 : env.PyWeakref_NewRef_fails with
  | some e => simp [NewConsuming_register, h1] at hc
  | none =>
    cases h2 : env.set_data_ok with
    | false => simp [NewConsuming_register, h1, h2] at hc
    | true =>
      cases h3 : env.set_up_connection_fails with
      | some e => simp [NewConsuming_register, h1, h2, h3] at hc
      | none =>
        rw [register_ok w env h ml self h1 h2 h3] at hc ⊢
        simp at hc
        subst hc
        refine ⟨rfl, w.fresh, ?_, ?_, ?_⟩
        · simp only [dbus_connection_get_data, (Py_XDECREF_slot_weakrefs _ _).1,
            NewConsuming_attached, slot_emit, slot_modify]
          exact dbus_connection_set_data_slot _ _ _
        · intro h1 hh
          simp only [dbus_connection_get_data, (Py_XDECREF_slot_weakrefs _ _).1,
            NewConsuming_attached, slot_emit, slot_modify]
          rw [dbus_connection_set_data_slot_other _ _ _ _ hh]
          intro hl
          exact Nat.lt_irrefl _ (slot_datum_lt_fresh w h1 w.fresh hl)
        · simp only [(Py_XDECREF_slot_weakrefs _ _).2,
            NewConsuming_attached, weakrefs_emit, weakrefs_modify]
          exact attached_weakref w h _

theorem construct_success (w : World) (env : Env) (cls : PyTypeObject) (h : Handle) (ml : Ptr)
    (c : Nat) (hc : (NewConsuming_construct w env cls h ml).1 = some c) :
    ∃ r, Associated h r c (NewConsuming_construct w env cls h ml).2 := by
  unfold NewConsuming_construct at hc ⊢
  cases h1 : env.tp_alloc_fails with
  | some e => simp [h1] at hc
  | none =>
    cases h2 : env.PyList_New_fails with
    | some e => simp [h1, h2] at hc
    | none =>
      cases h3 : env.PyDict_New_fails with
      | some e => simp [h1, h2, h3] at hc
      | none =>
        simp only [h1, h2, h3] at hc ⊢
        exact (register_success _ env h ml _ c hc).2

theorem default_success (w : World) (env : Env) (cls : PyTypeObject) (h : Handle)
    (self : Option Ptr) (c : Nat)
    (hc : (NewConsuming_default w env cls h self).1 = some c) :
    ∃ r, Associated h r c (NewConsuming_default w env cls h self).2 := by
  unfold NewConsuming_default dbus_py_get_default_main_loop at hc ⊢
  cases hd : env.default_main_loop with
  | none => simp [hd] at hc
  | some ml =>
    cases ml with
    | None => simp [hd] at hc
    | obj a =>
      simp only [hd] at hc ⊢
      exact construct_success _ env cls h _ c hc
    | ext a =>
      simp only [hd] at hc ⊢
      exact construct_success _ env cls h _ c hc

theorem new_success (w : World) (env : Env) (cls : PyTypeObject) (h : Handle)
    (mainloop : Option Ptr) (c : Nat)
    (hc : (DBusPyConnection_NewConsumingDBusConnection w env cls (some h) mainloop).1 = some c) :
    ∃ r, Associated h r c
      (DBusPyConnection_NewConsumingDBusConnection w env cls (some h) mainloop).2 := by
  unfold DBusPyConnection_NewConsumingDBusConnection at hc ⊢
  by_cases ha : (NewConsuming_self w h).isSome ∧ NewConsuming_self w h ≠ some .None
  · simp [ha] at hc
  · simp only [ha, if_false] at hc ⊢
    cases mainloop with
    | none => exact default_success w env cls h _ c hc
    | some ml =>
      cases ml with
      | None => exact default_success w env cls h _ c hc
      | obj a => exact construct_success _ env cls h _ c hc
      | ext a => exact construct_success _ env cls h _ c hc

theorem lookup_filter_self {α : Type} (l : List (Nat × α)) (k : Nat) :
    (l.filter (fun p => p.1 != k)).lookup k = none := by
  induction l with
  | nil => rfl
  | cons p t ih =>
    obtain ⟨a, b⟩ := p
    by_cases ha : a = k
    · subst ha
      simpa [List.filter] using ih
    · have hb : (a != k) = true := by simpa using ha
      have hk : (k == a) = false := by simpa using (Ne.symm ha)
      simp only [List.filter, hb, List.lookup, hk]
      exact ih

theorem err_modify (w : World) (a : Nat) (f : Connection → Connection) :
    (w.modify a f).err = w.err := by
  unfold World.modify
  cases w.load a <;> rfl

theorem heap_modify_filter (w : World) (a : Nat) (f : Connection → Connection) :
    (w.modify a f).heap.filter (fun p => p.1 != a) = w.heap.filter (fun p => p.1 != a) := by
  unfold World.modify
  cases w.load a with
  | none => rfl
  | some c => simp [World.store, List.filter_filter]

/-- C9: the destructor of a Connection whose `conn` is the handle `h` logs, in this
order, the close of `h`, the release of `filters`, the release of `object_paths`, the
store of `NULL` into `conn`, the unref of `h` and the freeing of the object; in every
state it goes through in which the last effect is the close or one of the two releases,
the object is still there with `conn` equal to `h`.  State by state, the object is: as
it was during the close; with `filters` set to `NULL` before and during the release of
`filters`; with `object_paths` set to `NULL` too before and during the release of
`object_paths`; with `conn` set to `NULL` from the store on, so during the unref; and
gone after `tp_free`.  On return the object alone has left the heap, and the error
indicator, the weak references and the data stored on handles are as before. -/
theorem C9_teardown_order (w : World) (self : Nat) (c : Connection) (h : Handle)
    (hload : w.load self = some c) (hconn : c.conn = some h) :
    (Connection_tp_dealloc w self).trace = w.trace ++
      [.dbus_connection_close h, .release_filters self c.filters,
       .release_object_paths self c.object_paths, .set_conn_NULL self,
       .dbus_connection_unref (some h), .tp_free self] ∧
    (∀ s ∈ Connection_tp_dealloc_states w self,
      (s.trace.getLast? = some (.dbus_connection_close h) ∨
       s.trace.getLast? = some (.release_filters self c.filters) ∨
       s.trace.getLast? = some (.release_object_paths self c.object_paths)) →
      ∃ c1, s.load self = some c1 ∧ c1.conn = some h) ∧
    (Connection_tp_dealloc_states w self).map (fun s => (w.since s, s.load self)) =
      [([.dbus_connection_close h], some c),
       ([.dbus_connection_close h], some { c with filters := none }),
       ([.dbus_connection_close h, .release_filters self c.filters],
         some { c with filters := none }),
       ([.dbus_connection_close h, .release_filters self c.filters],
         some { c with filters := none, object_paths := none }),
       ([.dbus_connection_close h, .release_filters self c.filters,
         .release_object_paths self c.object_paths],
         some { c with filters := none, object_paths := none }),
       ([.dbus_connection_close h, .release_filters self c.filters,
         .release_object_paths self c.object_paths, .set_conn_NULL self],
         some { c with filters := none, object_paths := none, conn := none }),
       ([.dbus_connection_close h, .release_filters self c.filters,
         .release_object_paths self c.object_paths, .set_conn_NULL self,
         .dbus_connection_unref (some h)],
         some { c with filters := none, object_paths := none, conn := none }),
       ([.dbus_connection_close h, .release_filters self c.filters,
         .release_object_paths self c.object_paths, .set_conn_NULL self,
         .dbus_connection_unref (some h), .tp_free self], none)] ∧
    (Connection_tp_dealloc w self).heap = w.heap.filter (fun p => p.1 != self) ∧
    (Connection_tp_dealloc w self).err = w.err ∧
    (Connection_tp_dealloc w self).weakrefs = w.weakrefs ∧
    (Connection_tp_dealloc w self).slot = w.slot := by
  have h1 : (w.emit (.dbus_connection_close h)).load self = some c := hload
  have h2 := load_modify_same _ self (fun c => { c with filters := none }) c h1
  have h3 : ((((w.emit (.dbus_connection_close h)).modify self
      (fun c => { c with filters := none })).emit (.release_filters self c.filters)).load self)
      = some { c with filters := none } := h2
  have h4 := load_modify_same _ self (fun c => { c with object_paths := none }) _ h3
  have h5 : ((((((w.emit (.dbus_connection_close h)).modify self
      (fun c => { c with filters := none })).emit (.release_filters self c.filters)).modify self
      (fun c => { c with object_paths := none })).emit
      (.release_object_paths self c.object_paths)).load self)
      = some { c with filters := none, object_paths := none } := h4
  have h6 := load_modify_same _ self (fun c => { c with conn := none }) _ h5
  refine ⟨?_, ?_, ?_, ?_, ?_, ?_, ?_⟩
  · simp [Connection_tp_dealloc, Connection_tp_dealloc_states, hload, hconn]
  · intro s hs hlast
    simp only [Connection_tp_dealloc_states, hload, hconn, List.mem_cons, List.mem_singleton,
      List.not_mem_nil, or_false] at hs
    rcases hs with rfl | rfl | rfl | rfl | rfl | rfl | rfl | rfl
    · exact ⟨c, h1, hconn⟩
    · exact ⟨_, h2, hconn⟩
    · exact ⟨_, h3, hconn⟩
    · exact ⟨_, h4, hconn⟩
    · exact ⟨_, h4, hconn⟩
    · simp at hlast
    · simp at hlast
    · simp [World.emit] at hlast
  · simp only [Connection_tp_dealloc_states, hload, hconn, List.map_cons, List.map_nil]
    simp [World.since, h1, h2, h4, h6]
    exact ⟨hconn, lookup_filter_self _ _⟩
  · simp [Connection_tp_dealloc, Connection_tp_dealloc_states, hload, hconn, World.emit,
      heap_modify_filter]
  · simp [Connection_tp_dealloc, Connection_tp_dealloc_states, hload, hconn, World.emit,
      err_modify]
  · exact (dealloc_slot_weakrefs w self).2
  · exact (dealloc_slot_weakrefs w self).1

theorem construct_ok (w : World) (env : Env) (cls : PyTypeObject) (h : Handle) (ml : Ptr)
    (h1 : env.tp_alloc_fails = none) (h2 : env.PyList_New_fails = none)
    (h3 : env.PyDict_New_fails = none) :
    NewConsuming_construct w env cls h ml
      = NewConsuming_register (NewConsuming_allocated w cls) env h ml w.fresh := by
  simp only [NewConsuming_construct, h1, h2, h3, NewConsuming_allocated]
  rfl

theorem new_unassociated (w : World) (env : Env) (cls : PyTypeObject) (h : Handle)
    (mainloop : Option Ptr)
    (hfree : NewConsuming_self w h = none ∨ NewConsuming_self w h = some .None) :
    DBusPyConnection_NewConsumingDBusConnection w env cls (some h) mainloop =
      match mainloop with
      | none => NewConsuming_default w env cls h (NewConsuming_self w h)
      | some .None => NewConsuming_default w env cls h (NewConsuming_self w h)
      | some ml => NewConsuming_construct (Py_INCREF w ml) env cls h ml := by
  unfold DBusPyConnection_NewConsumingDBusConnection
  have hn : ¬ ((NewConsuming_self w h).isSome ∧ NewConsuming_self w h ≠ some .None) := by
    rcases hfree with hf | hf <;> simp [hf]
  simp only [hn, if_false]

theorem new_resolved (w : World) (env : Env) (cls : PyTypeObject) (h : Handle)
    (mainloop : Option Ptr) (ml : Ptr)
    (hfree : NewConsuming_self w h = none ∨ NewConsuming_self w h = some .None)
    (hml : ml ≠ .None)
    (hres : mainloop = some ml ∨
      ((mainloop = none ∨ mainloop = some .None) ∧ env.default_main_loop = some ml)) :
    DBusPyConnection_NewConsumingDBusConnection w env cls (some h) mainloop
      = NewConsuming_construct (Py_INCREF w ml) env cls h ml := by
  rw [new_unassociated w env cls h mainloop hfree]
  rcases hres with rfl | ⟨hm, hd⟩
  · cases ml with
    | None => exact absurd rfl hml
    | obj a => rfl
    | ext a => rfl
  · have hdef : NewConsuming_default w env cls h (NewConsuming_self w h)
        = NewConsuming_construct (Py_INCREF w ml) env cls h ml := by
      unfold NewConsuming_default dbus_py_get_default_main_loop
      cases ml with
      | None => exact absurd rfl hml
      | obj a => simp [hd]
      | ext a => simp [hd]
    rcases hm with rfl | rfl <;> exact hdef

theorem Associated_congr {h : Handle} {r c : Nat} {w w1 : World} (ha : Associated h r c w)
    (hs : w1.slot = w.slot) (hw : w1.weakrefs = w.weakrefs) : Associated h r c w1 := by
  unfold Associated dbus_connection_get_data at *
  rw [hs, hw]
  exact ha

theorem Associated_lt_fresh {h : Handle} {r c : Nat} {w : World} (ha : Associated h r c w) :
    r < w.fresh :=
  slot_datum_lt_fresh w h r ha.1

theorem Associated_free_other {h : Handle} {r c : Nat} {w : World} (ha : Associated h r c w)
    (r1 : Nat) (hr : r1 ≠ r) : Associated h r c (Py_XDECREF_weakref w (some r1)) := by
  obtain ⟨h1, h2, h3⟩ := ha
  refine ⟨h1, h2, ?_⟩
  show (w.weakrefs.filter (fun p => p.1 != r1)).lookup r = some (some c)
  rw [lookup_filter_ne _ _ _ (Ne.symm hr)]
  exact h3

theorem Associated_add_weakref {h : Handle} {r c : Nat} {w : World} (ha : Associated h r c w)
    (r1 : Nat) (x : Option Nat) (hr : r1 ≠ r) :
    Associated h r c { w with weakrefs := (r1, x) :: w.weakrefs } := by
  obtain ⟨h1, h2, h3⟩ := ha
  refine ⟨h1, h2, ?_⟩
  have hb : (r == r1) = false := by simpa using (Ne.symm hr)
  show List.lookup r ((r1, x) :: w.weakrefs) = some (some c)
  simp only [List.lookup, hb]
  exact h3

theorem Associated_set_data_other {h : Handle} {r c : Nat} {w : World}
    (ha : Associated h r c w) (h1 : Handle) (r1 : Nat) (hh : h1 ≠ h) (hr : r1 ≠ r) :
    Associated h r c (dbus_connection_set_data w h1 r1) := by
  have hfreed : Associated h r c (match dbus_connection_get_data w h1 with
      | some old => Py_XDECREF_weakref w (some old)
      | none => w) := by
    cases hg : dbus_connection_get_data w h1 with
    | none => exact ha
    | some old =>
      have hne : old ≠ r := by
        intro he
        exact ha.2.1 h1 hh (by rw [hg, he])
      exact Associated_free_other ha old hne
  obtain ⟨a1, a2, a3⟩ := hfreed
  unfold dbus_connection_set_data
  refine ⟨?_, ?_, a3⟩
  · show List.lookup h ((h1, r1) :: _) = some r
    have hb : (h == h1) = false := by simpa using (Ne.symm hh)
    simp only [List.lookup, hb]
    rw [lookup_filter_ne _ _ _ (Ne.symm hh)]
    exact a1
  · intro h2 hh2
    show List.lookup h2 ((h1, r1) :: _) ≠ some r
    by_cases he : h2 = h1
    · subst he
      simp [List.lookup, hr]
    · have hb : (h2 == h1) = false := by simpa using he
      simp only [List.lookup, hb]
      rw [lookup_filter_ne _ _ _ he]
      exact a2 h2 hh2

theorem Associated_err_path {h : Handle} {r c : Nat} {w : World} (ha : Associated h r c w)
    (ml self : Option Ptr) (ref : Option Nat) (conn : Option Handle)
    (hr : ∀ r1, ref = some r1 → r1 ≠ r) :
    Associated h r c (NewConsuming_err w ml self ref conn).2 := by
  have h1 : Associated h r c (Py_XDECREF w ml) :=
    Associated_congr ha (Py_XDECREF_slot_weakrefs _ _).1 (Py_XDECREF_slot_weakrefs _ _).2
  have h2 : Associated h r c (Py_XDECREF (Py_XDECREF w ml) self) :=
    Associated_congr h1 (Py_XDECREF_slot_weakrefs _ _).1 (Py_XDECREF_slot_weakrefs _ _).2
  have h3 : Associated h r c (Py_XDECREF_weakref (Py_XDECREF (Py_XDECREF w ml) self) ref) := by
    cases ref with
    | none => exact h2
    | some r1 => exact Associated_free_other h2 r1 (hr r1 rfl)
  unfold NewConsuming_err
  cases conn with
  | none => exact h3
  | some h1 => exact Associated_congr h3 rfl rfl

theorem Associated_register {h : Handle} {r c : Nat} {w : World} (ha : Associated h r c w)
    (env : Env) (h1 : Handle) (ml : Ptr) (self : Nat) (hh : h1 ≠ h) :
    Associated h r c (NewConsuming_register w env h1 ml self).2 := by
  have hfr : w.fresh ≠ r := Nat.ne_of_gt (Associated_lt_fresh ha)
  unfold NewConsuming_register
  cases e1 : env.PyWeakref_NewRef_fails with
  | some e =>
    exact Associated_err_path (by exact Associated_congr ha rfl rfl) _ _ none _ (fun _ hn => by cases hn)
  | none =>
    have hadd := Associated_add_weakref ha w.fresh self hfr
    cases e2 : env.set_data_ok with
    | false =>
      simp only [if_true]
      refine Associated_err_path (w := { ({ w with weakrefs := (w.fresh, some self) :: w.weakrefs
        }.emit (.dbus_connection_set_data h1 w.fresh false)) with
        err := PyErr_SetString .MemoryError "" }) (Associated_congr hadd rfl rfl) _ _ _ _ ?_
      intro r1 hr1
      cases hr1
      exact hfr
    | true =>
      simp only [Bool.true_eq_false, if_false]
      have hset := Associated_set_data_other hadd h1 w.fresh hh hfr
      have hatt : Associated h r c (NewConsuming_attached w h1 ml self) :=
        Associated_congr hset (by simp [NewConsuming_attached]) (by simp [NewConsuming_attached])
      cases e3 : env.set_up_connection_fails with
      | some e =>
        refine Associated_err_path (w := { NewConsuming_attached w h1 ml self with
          err := some e }) (Associated_congr hatt rfl rfl) _ _ _ _ ?_
        intro r1 hr1
        cases hr1
        exact hfr
      | none =>
        exact Associated_congr hatt (Py_XDECREF_slot_weakrefs _ _).1 (Py_XDECREF_slot_weakrefs _ _).2

theorem Associated_construct {h : Handle} {r c : Nat} {w : World} (ha : Associated h r c w)
    (env : Env) (cls : PyTypeObject) (h1 : Handle) (ml : Ptr) (hh : h1 ≠ h) :
    Associated h r c (NewConsuming_construct w env cls h1 ml).2 := by
  unfold NewConsuming_construct
  cases e1 : env.tp_alloc_fails with
  | some e =>
    exact Associated_err_path (by exact Associated_congr ha rfl rfl) _ _ none _ (fun _ hn => by cases hn)
  | none =>
    cases e2 : env.PyList_New_fails with
    | some e =>
      exact Associated_err_path (by exact Associated_congr ha rfl rfl) _ _ none _ (fun _ hn => by cases hn)
    | none =>
      cases e3 : env.PyDict_New_fails with
      | some e =>
        exact Associated_err_path (by exact Associated_congr ha (by simp) (by simp)) _ _ none _
          (fun _ hn => by cases hn)
      | none =>
        exact Associated_register (Associated_congr ha (by simp) (by simp)) env h1 ml _ hh

theorem Py_INCREF_slot_weakrefs (w : World) (p : Ptr) :
    (Py_INCREF w p).slot = w.slot ∧ (Py_INCREF w p).weakrefs = w.weakrefs := by
  unfold Py_INCREF
  split
  · split <;> exact ⟨rfl, rfl⟩
  · exact ⟨rfl, rfl⟩

theorem Associated_default {h : Handle} {r c : Nat} {w : World} (ha : Associated h r c w)
    (env : Env) (cls : PyTypeObject) (h1 : Handle) (self : Option Ptr) (hh : h1 ≠ h) :
    Associated h r c (NewConsuming_default w env cls h1 self).2 := by
  unfold NewConsuming_default dbus_py_get_default_main_loop
  cases hd : env.default_main_loop with
  | none => exact Associated_err_path (by exact Associated_congr ha rfl rfl) _ _ none _ (fun _ hn => by cases hn)
  | some ml =>
    have hi : Associated h r c (Py_INCREF w ml) :=
      Associated_congr ha (Py_INCREF_slot_weakrefs _ _).1 (Py_INCREF_slot_weakrefs _ _).2
    cases ml with
    | None =>
      exact Associated_err_path (w := { Py_INCREF w .None with
        err := PyErr_SetString .ValueError no_main_loop_msg }) (Associated_congr hi rfl rfl) _ _ none _
        (fun _ hn => by cases hn)
    | obj a => exact Associated_construct hi env cls h1 _ hh
    | ext a => exact Associated_construct hi env cls h1 _ hh

theorem Associated_self_of_alive {h : Handle} {r c : Nat} {w : World}
    (ha : Associated h r c w) (hc : DBusPyConnection_Check w (.obj c) = true) :
    NewConsuming_self w h = some (.obj c) := by
  have hl : (w.load c).isSome = true := by
    unfold DBusPyConnection_Check at hc
    cases hload : w.load c with
    | none => simp [hload] at hc
    | some x => rfl
  simp [NewConsuming_self, ha.1, PyWeakref_GetObject, ha.2.2, hl]

theorem Associated_new {h : Handle} {r c : Nat} {w : World} (ha : Associated h r c w)
    (hc : DBusPyConnection_Check w (.obj c) = true)
    (env : Env) (cls : PyTypeObject) (conn : Option Handle) (mainloop : Option Ptr) :
    Associated h r c (DBusPyConnection_NewConsumingDBusConnection w env cls conn mainloop).2 := by
  unfold DBusPyConnection_NewConsumingDBusConnection
  cases conn with
  | none => exact Associated_congr ha rfl rfl
  | some h1 =>
    simp only
    split
    · exact Associated_congr ha rfl rfl
    · rename_i hnot
      have hh : h1 ≠ h := by
        intro he
        subst he
        apply hnot
        rw [Associated_self_of_alive ha hc]
        simp
      cases mainloop with
      | none => exact Associated_default ha env cls h1 _ hh
      | some ml =>
        cases ml with
        | None => exact Associated_default ha env cls h1 _ hh
        | obj a =>
          exact Associated_construct
            (Associated_congr ha (Py_INCREF_slot_weakrefs _ _).1 (Py_INCREF_slot_weakrefs _ _).2)
            env cls h1 _ hh
        | ext a =>
          exact Associated_construct
            (Associated_congr ha (Py_INCREF_slot_weakrefs _ _).1 (Py_INCREF_slot_weakrefs _ _).2)
            env cls h1 _ hh

theorem Associated_existing {h : Handle} {r c : Nat} {w : World} (ha : Associated h r c w)
    (conn : Handle) :
    Associated h r c (DBusPyConnection_ExistingFromDBusConnection w conn).2 := by
  unfold DBusPyConnection_ExistingFromDBusConnection
  simp only
  split
  · split
    · split
      · exact Associated_congr ha (Py_INCREF_slot_weakrefs _ _).1 (Py_INCREF_slot_weakrefs _ _).2
      · exact Associated_congr ha rfl rfl
    · exact Associated_congr ha rfl rfl
  · exact Associated_congr ha rfl rfl

theorem Associated_op {h : Handle} {r c : Nat} {w : World} (ha : Associated h r c w)
    (hc : DBusPyConnection_Check w (.obj c) = true) (o : Op) : Associated h r c (o.run w) := by
  cases o with
  | construct env cls conn mainloop => exact Associated_new ha hc env cls conn mainloop
  | lookup conn => exact Associated_existing ha conn
  | incref p => exact Associated_congr ha (Py_INCREF_slot_weakrefs _ _).1 (Py_INCREF_slot_weakrefs _ _).2
  | decref p =>
    exact Associated_congr ha (Py_XDECREF_slot_weakrefs _ _).1 (Py_XDECREF_slot_weakrefs _ _).2

theorem Associated_ops {h : Handle} {r c : Nat} (ops : List Op) :
    ∀ w : World, Associated h r c w → alive_throughout c ops w = true →
      Associated h r c (run_ops ops w) ∧
      DBusPyConnection_Check (run_ops ops w) (.obj c) = true := by
  induction ops with
  | nil => exact fun w ha hal => ⟨ha, hal⟩
  | cons o t ih =>
    intro w ha hal
    simp only [alive_throughout, Bool.and_eq_true] at hal
    exact ih (o.run w) (Associated_op ha hal.1 o) hal.2

/-- C6: when the constructor succeeds on handle `h` and returns the wrapper `c`, the
lookup of `h` returns `c` itself, in the state the constructor returns in and after any
further calls of the constructor, the lookup, and taking or dropping references, as long
as `c` is a live Connection in each of the states in between. -/
theorem C6_install_then_lookup (w w1 : World) (env : Env) (cls : PyTypeObject) (h : Handle)
    (mainloop : Option Ptr) (c : Nat) (ops : List Op)
    (hnew : DBusPyConnection_NewConsumingDBusConnection w env cls (some h) mainloop
      = (some c, w1))
    (halive : alive_throughout c ops w1 = true) :
    (DBusPyConnection_ExistingFromDBusConnection (run_ops ops w1) h).1 = some c := by
  have hc : (DBusPyConnection_NewConsumingDBusConnection w env cls (some h) mainloop).1
      = some c := by rw [hnew]
  obtain ⟨r, hr⟩ := new_success w env cls h mainloop c hc
  rw [hnew] at hr
  obtain ⟨ha, hchk⟩ := Associated_ops ops w1 hr halive
  exact Existing_of_self _ h c (Associated_self_of_alive ha hchk) hchk

/-- The effects of the destructor of an object whose `conn` is the handle `h`. -/
theorem dealloc_trace (w : World) (self : Nat) (c : Connection) (h : Handle)
    (hload : w.load self = some c) (hconn : c.conn = some h) :
    (Connection_tp_dealloc w self).trace = w.trace ++
      [.dbus_connection_close h, .release_filters self c.filters,
       .release_object_paths self c.object_paths, .set_conn_NULL self,
       .dbus_connection_unref (some h), .tp_free self] := by
  simp [Connection_tp_dealloc, Connection_tp_dealloc_states, hload, hconn]

theorem allocated_load (w : World) (cls : PyTypeObject) :
    (NewConsuming_allocated w cls).load w.fresh
      = some ⟨1, cls, none, some [], some []⟩ := by
  unfold NewConsuming_allocated
  have h1 := load_store_same (w.emit (.tp_alloc cls)) w.fresh
    { ob_refcnt := 1, ob_type := cls, conn := none, filters := none, object_paths := none }
  have h2 := load_modify_same _ w.fresh (fun c => { c with filters := some [] }) _ h1
  exact load_modify_same _ w.fresh (fun c => { c with object_paths := some [] }) _ h2

theorem attached_load (w : World) (h : Handle) (ml : Ptr) (self : Nat) (c : Connection)
    (hc : w.load self = some c) :
    (NewConsuming_attached w h ml self).load self = some { c with conn := some h } := by
  unfold NewConsuming_attached
  have h0 : ((dbus_connection_set_data { w with weakrefs := (w.fresh, some self) :: w.weakrefs } h
      w.fresh).emit (.dbus_connection_set_data h w.fresh true)).load self = some c := by
    unfold dbus_connection_set_data
    cases hg : dbus_connection_get_data { w with weakrefs := (w.fresh, some self) :: w.weakrefs } h
      <;> exact hc
  exact load_modify_same _ self (fun c => { c with conn := some h }) _ h0

theorem attached_trace_fresh_handle (w : World) (h : Handle) (ml : Ptr) (self : Nat)
    (hfree : dbus_connection_get_data w h = none) :
    (NewConsuming_attached w h ml self).trace = w.trace ++
      [.dbus_connection_set_data h w.fresh true, .dbus_py_set_up_connection self ml] := by
  have hg : dbus_connection_get_data { w with weakrefs := (w.fresh, some self) :: w.weakrefs } h
      = none := hfree
  simp [NewConsuming_attached, dbus_connection_set_data, hg]

/-- Whenever the attachment to a main loop fails on a handle that stores no datum, all
earlier steps having succeeded, the constructor returns NULL and has logged two closes
and two unrefs of the handle: one pair from the destructor of the wrapper (at `self`),
one from the code after `err:`. -/
theorem attach_failure_trace (w : World) (env : Env) (cls : PyTypeObject) (h : Handle)
    (k : Nat) (e : PyErr)
    (hfree : dbus_connection_get_data w h = none)
    (h1 : env.tp_alloc_fails = none) (h2 : env.PyList_New_fails = none)
    (h3 : env.PyDict_New_fails = none) (h4 : env.PyWeakref_NewRef_fails = none)
    (h5 : env.set_data_ok = true) (h6 : env.set_up_connection_fails = some e) :
    (DBusPyConnection_NewConsumingDBusConnection w env cls (some h) (some (.ext k))).1 = none ∧
    ∃ self r,
      w.since (DBusPyConnection_NewConsumingDBusConnection w env cls (some h)
          (some (.ext k))).2 =
        [.Py_INCREF (.ext k), .tp_alloc cls, .dbus_connection_set_data h r true,
         .dbus_py_set_up_connection self (.ext k), .Py_DECREF (.ext k),
         .dbus_connection_close h, .release_filters self (some []),
         .release_object_paths self (some []), .set_conn_NULL self,
         .dbus_connection_unref (some h), .tp_free self, .free_weakref r,
         .dbus_connection_close h, .dbus_connection_unref (some h)] := by
  have hself : NewConsuming_self w h = none := by simp [NewConsuming_self, hfree]
  rw [new_resolved w env cls h (some (.ext k)) (.ext k) (Or.inl hself) (by simp) (Or.inl rfl)]
  have hw : Py_INCREF w (.ext k) = w.emit (.Py_INCREF (.ext k)) := rfl
  rw [hw, construct_ok _ env cls h _ h1 h2 h3]
  generalize hW : w.emit (.Py_INCREF (.ext k)) = W
  have hWt : W.trace = w.trace ++ [.Py_INCREF (.ext k)] := by rw [← hW]; rfl
  have hWf : dbus_connection_get_data (NewConsuming_allocated W cls) h = none := by
    rw [← hW]
    simpa [dbus_connection_get_data, NewConsuming_allocated] using hfree
  generalize hA : NewConsuming_allocated W cls = A at hWf
  have hAt : A.trace = W.trace ++ [.tp_alloc cls] := by
    rw [← hA]; simp [NewConsuming_allocated]
  have hAl : A.load W.fresh = some ⟨1, cls, none, some [], some []⟩ := by
    rw [← hA]; exact allocated_load W cls
  have hr : NewConsuming_register A env h (.ext k) W.fresh
      = NewConsuming_err { NewConsuming_attached A h (.ext k) W.fresh with err := some e }
          (some (.ext k)) (some (.obj W.fresh)) (some A.fresh) (some h) := by
    simp [NewConsuming_register, NewConsuming_attached, h4, h5, h6]
  rw [hr]
  refine ⟨rfl, W.fresh, A.fresh, ?_⟩
  have hT := attached_trace_fresh_handle A h (.ext k) W.fresh hWf
  have hL := attached_load A h (.ext k) W.fresh _ hAl
  generalize NewConsuming_attached A h (.ext k) W.fresh = T at hT hL
  have hL2 : (({ T with err := some e } : World).emit (.Py_DECREF (.ext k))).load W.fresh
      = some ⟨1, cls, some h, some [], some []⟩ := hL
  have hD := dealloc_trace _ W.fresh _ h hL2 rfl
  simp only [NewConsuming_err, Py_XDECREF, hL2, Py_XDECREF_weakref]
  generalize Connection_tp_dealloc
    (({ T with err := some e } : World).emit (.Py_DECREF (.ext k))) W.fresh = D at hD
  simp [World.since, hD, hT, hAt, hWt]

/-- C8: main-loop attachment failing on the unassociated handle `7`.  The wrapper's
destructor closes and unrefs the handle, and the code after `err:` closes and unrefs it
once more: the handle is released twice on this path. -/
theorem C8_attach_failure_releases_twice :
    (DBusPyConnection_NewConsumingDBusConnection empty_world env_attach_fails Connection_Type
      (some 7) (some (.ext 50))).1 = none ∧
    (DBusPyConnection_NewConsumingDBusConnection empty_world env_attach_fails Connection_Type
      (some 7) (some (.ext 50))).2.trace =
      [.Py_INCREF (.ext 50), .tp_alloc Connection_Type, .dbus_connection_set_data 7 2 true,
       .dbus_py_set_up_connection 1 (.ext 50), .Py_DECREF (.ext 50),
       .dbus_connection_close 7, .release_filters 1 (some []),
       .release_object_paths 1 (some []), .set_conn_NULL 1,
       .dbus_connection_unref (some 7), .tp_free 1, .free_weakref 2,
       .dbus_connection_close 7, .dbus_connection_unref (some 7)] ∧
    (DBusPyConnection_NewConsumingDBusConnection empty_world env_attach_fails Connection_Type
      (some 7) (some (.ext 50))).2.trace.count (.dbus_connection_unref (some 7)) = 2 := by
  decide

/-- On the failure paths before the attachment (allocation of the wrapper, of `filters`,
of `object_paths`, of the weak reference, and `dbus_connection_set_data`), and when no
main loop is found, the handle `7` is closed once and unreffed once. -/
theorem early_failures_release_once :
    ∀ env ∈ [({ env_ok with tp_alloc_fails := some ⟨.MemoryError, ""⟩ } : Env),
        { env_ok with PyList_New_fails := some ⟨.MemoryError, ""⟩ },
        { env_ok with PyDict_New_fails := some ⟨.MemoryError, ""⟩ },
        { env_ok with PyWeakref_NewRef_fails := some ⟨.MemoryError, ""⟩ },
        { env_ok with set_data_ok := false }],
      ∀ ml ∈ [some (Ptr.ext 50), none],
      (DBusPyConnection_NewConsumingDBusConnection empty_world env Connection_Type
        (some 7) ml).1 = none ∧
      (DBusPyConnection_NewConsumingDBusConnection empty_world env Connection_Type
        (some 7) ml).2.trace.count (.dbus_connection_unref (some 7)) = 1 ∧
      (DBusPyConnection_NewConsumingDBusConnection empty_world env Connection_Type
        (some 7) ml).2.trace.count (.dbus_connection_close 7) = 1 := by
  decide

/-- Witness for C6: construct on handle `7`, then look it up, construct on handle `8`,
take and drop a reference; the lookup of `7` still returns the wrapper at `1`. -/
theorem C6_install_then_lookup_witness :
    DBusPyConnection_NewConsumingDBusConnection empty_world env_ok Connection_Type (some 7)
        (some (.ext 50))
      = (some 1, (DBusPyConnection_NewConsumingDBusConnection empty_world env_ok
          Connection_Type (some 7) (some (.ext 50))).2) ∧
    alive_throughout 1
        [.lookup 7, .construct env_ok Connection_Type (some 8) (some (.ext 50)),
         .construct env_attach_fails Connection_Type (some 9) (some (.obj 1)),
         .decref (.obj 1)]
        (DBusPyConnection_NewConsumingDBusConnection empty_world env_ok Connection_Type
          (some 7) (some (.ext 50))).2 = true ∧
    (DBusPyConnection_ExistingFromDBusConnection
      (run_ops
        [.lookup 7, .construct env_ok Connection_Type (some 8) (some (.ext 50)),
         .construct env_attach_fails Connection_Type (some 9) (some (.obj 1)),
         .decref (.obj 1)]
        (DBusPyConnection_NewConsumingDBusConnection empty_world env_ok Connection_Type
          (some 7) (some (.ext 50))).2) 7).1 = some 1 :=
  ⟨by decide, by decide,
    C6_install_then_lookup empty_world _ env_ok Connection_Type 7 (some (.ext 50)) 1 _
      (by decide) (by decide)⟩

/-- Witness for C7: a second construction on the associated handle `7`. -/
theorem C7_already_associated_witness :
    (DBusPyConnection_ExistingFromDBusConnection associated_world 7).1 = some 1 ∧
    DBusPyConnection_NewConsumingDBusConnection associated_world env_ok Connection_Type
        (some 7) (some (.ext 50))
      = (none, { associated_world with
          err := some ⟨.AssertionError, already_associated_msg⟩ }) :=
  ⟨by decide,
    (C7_already_associated associated_world env_ok Connection_Type 7 (some (.ext 50)) 1
      (by decide)).1⟩

/-- Witness for C9: teardown of the Connection at address `1` holding handle `7`. -/
theorem C9_teardown_order_witness :
    associated_world.load 1 = some ⟨1, Connection_Type, some 7, some [], some []⟩ ∧
    (Connection_tp_dealloc associated_world 1).trace =
      [.dbus_connection_close 7, .release_filters 1 (some []),
       .release_object_paths 1 (some []), .set_conn_NULL 1,
       .dbus_connection_unref (some 7), .tp_free 1] ∧
    (Connection_tp_dealloc associated_world 1).heap = [] :=
  ⟨by decide,
    (C9_teardown_order associated_world 1 ⟨1, Connection_Type, some 7, some [], some []⟩ 7
      (by decide) rfl).1,
    (C9_teardown_order associated_world 1 ⟨1, Connection_Type, some 7, some [], some []⟩ 7
      (by decide) rfl).2.2.2.1⟩

/-- Once the wrapper of handle `7` has been freed, the weak reference stored on the
handle still holds the wrapper's address, so the check at the top of the constructor
takes the handle for associated: the constructor returns NULL with the `AssertionError`
and logs nothing. -/
theorem freed_wrapper_still_associated :
    NewConsuming_self (Connection_tp_dealloc associated_world 1) 7 = some (.obj 1) ∧
    DBusPyConnection_NewConsumingDBusConnection (Connection_tp_dealloc associated_world 1)
        env_ok Connection_Type (some 7) none
      = (none, { Connection_tp_dealloc associated_world 1 with
          err := some ⟨.AssertionError, already_associated_msg⟩ }) := by
  decide

end DBusPy
